import Mathlib

/-!
Shallow embedding of the NITTA ML data-crawling core:

* `node_converting.py`: `nitta_node_to_df_dict`, `_extract_params_dict`,
  `_extract_alternative_siblings_dict`;
* `data_crawling.py`: `crawl_data_from_example`, `crawl_data_from_many_examples`,
  `MANUAL_FULL_CRAWL_CONFIG`.

Python dicts are modelled as ordered association lists with string keys
(insertion order preserved, keys unique in well-formed inputs).  Python
exceptions are modelled explicitly as error values.
-/

deriving instance DecidableEq for Except

/-- Scalar-ish values occurring in node parameter payloads and feature rows:
strings, arbitrary-precision integers, booleans, Python `None`, and integer
sequences (the `pNotTransferableInputs` flag list). -/
inductive Value where
  | str (s : String)
  | int (n : Int)
  | bool (b : Bool)
  | none
  | intList (l : List Int)
  deriving DecidableEq, Repr

/-- The `parameters` attribute of a node: either a Python dict (ordered
association list) or some non-dict object (modelled as a bare value). -/
inductive PyParams where
  | dict (entries : List (String × Value))
  | atom (v : Value)
  deriving DecidableEq, Repr

/-- Python exceptions that the feature extractor can raise. -/
inductive PyErr where
  | assertionError (msg : String)
  | keyError (k : String)
  | typeError (msg : String)
  deriving DecidableEq, Repr

/-- One decision node of the synthesis tree, as consumed by
`nitta_node_to_df_dict` (fields of `NittaNode` that the crawling core reads). -/
structure NittaNode where
  sid : String
  decision_tag : String
  score : Int
  is_terminal : Bool
  parameters : PyParams
  deriving DecidableEq, Repr

/-- Keys of a Python dict, in insertion order. -/
def dictKeys (d : List (String × Value)) : List String :=
  d.map Prod.fst

/-- Python `d[k]` as an option: value of the first entry with key `k`. -/
def dictGet : List (String × Value) → String → Option Value
  | [], _ => Option.none
  | (k0, v0) :: rest, k => if k0 = k then some v0 else dictGet rest k

/-- Python membership test `k in d`. -/
def dictHasKey : List (String × Value) → String → Bool
  | [], _ => false
  | (k0, _) :: rest, k => k0 == k || dictHasKey rest k

/-- Python assignment `d[k] = v`: replaces the value in place when the key is
present (keeping its position), appends the entry at the end otherwise. -/
def dictSet : List (String × Value) → String → Value → List (String × Value)
  | [], k, v => [(k, v)]
  | (k0, v0) :: rest, k, v =>
    if k0 = k then (k0, v) :: rest else (k0, v0) :: dictSet rest k v

/-- Python `del d[k]`: removes the entry with key `k`, raising `KeyError`
when the key is absent. -/
def dictDel : List (String × Value) → String → Except PyErr (List (String × Value))
  | [], k => Except.error (PyErr.keyError k)
  | (k0, v0) :: rest, k =>
    if k0 = k then Except.ok rest
    else (dictDel rest k).map (fun r => (k0, v0) :: r)

/-- Python `sum(l)` over a list of integers (left fold from 0). -/
def listSumInt (l : List Int) : Int :=
  l.foldl (fun a b => a + b) 0

def SINGLE_BIND_DECISION_TAG : String := "SingleBindView"

def GROUP_BIND_DECISION_TAG : String := "GroupBindView"

def BIND_DECISION_TAGS : List String :=
  [SINGLE_BIND_DECISION_TAG, GROUP_BIND_DECISION_TAG]

def DATAFLOW_DECISION_TAGS : List String :=
  ["DataflowDecisionView"]

/-- Embedding of `_extract_params_dict` from `node_converting.py`: dispatch the
kind-specific parameter shaping on the node's decision tag.  Bind/Dataflow
nodes must carry a dict payload (assertion); Dataflow replaces the
`pNotTransferableInputs` sequence by its sum (summing a non-sequence is a
`TypeError`, a missing key a `KeyError`); Bind deletes the `tag` entry;
Root yields an empty dict; every other tag is a refactoring. -/
def _extract_params_dict (node : NittaNode) : Except PyErr (List (String × Value)) :=
  if node.decision_tag ∈ DATAFLOW_DECISION_TAGS ++ BIND_DECISION_TAGS then
    match node.parameters with
    | PyParams.dict params =>
      if node.decision_tag ∈ DATAFLOW_DECISION_TAGS then
        match dictGet params "pNotTransferableInputs" with
        | Option.none => Except.error (PyErr.keyError "pNotTransferableInputs")
        | some (Value.intList l) =>
          Except.ok (dictSet params "pNotTransferableInputs" (Value.int (listSumInt l)))
        | some _ => Except.error (PyErr.typeError "sum argument is not iterable")
      else
        dictDel params "tag"
    | PyParams.atom _ =>
      Except.error (PyErr.assertionError "parameters must be a dict for Bind and Dataflow decisions")
  else if node.decision_tag = "RootView" then
    Except.ok []
  else
    Except.ok [("pRefactoringType", Value.str node.decision_tag)]

/-- The four alternative-sibling counters of `_extract_alternative_siblings_dict`. -/
structure AltCounts where
  alt_bindings : Nat
  alt_group_bindings : Nat
  alt_dataflows : Nat
  alt_refactorings : Nat
  deriving DecidableEq, Repr

/-- One iteration of the sibling-classification loop: skip the node itself,
otherwise bump exactly one of the four counters. -/
def altStep (node : NittaNode) (acc : AltCounts) (sibling : NittaNode) : AltCounts :=
  if sibling.sid = node.sid then acc
  else if sibling.decision_tag = SINGLE_BIND_DECISION_TAG then
    { acc with alt_bindings := acc.alt_bindings + 1 }
  else if sibling.decision_tag = GROUP_BIND_DECISION_TAG then
    { acc with alt_group_bindings := acc.alt_group_bindings + 1 }
  else if sibling.decision_tag ∈ DATAFLOW_DECISION_TAGS then
    { acc with alt_dataflows := acc.alt_dataflows + 1 }
  else
    { acc with alt_refactorings := acc.alt_refactorings + 1 }

/-- The sibling-classification loop of `_extract_alternative_siblings_dict`,
starting from all-zero counters. -/
def countAlternatives (node : NittaNode) (siblings : List NittaNode) : AltCounts :=
  siblings.foldl (altStep node) ⟨0, 0, 0, 0⟩

/-- Sum of the four counters. -/
def AltCounts.total (c : AltCounts) : Nat :=
  c.alt_bindings + c.alt_group_bindings + c.alt_dataflows + c.alt_refactorings

/-- Embedding of `_extract_alternative_siblings_dict`: the four-key dict in
its creation order, holding the loop's final counters. -/
def _extract_alternative_siblings_dict (node : NittaNode) (siblings : List NittaNode) :
    List (String × Value) :=
  let c := countAlternatives node siblings
  [("alt_bindings", Value.int c.alt_bindings),
   ("alt_group_bindings", Value.int c.alt_group_bindings),
   ("alt_dataflows", Value.int c.alt_dataflows),
   ("alt_refactorings", Value.int c.alt_refactorings)]

/-- Conversion of the optional `example` label to a row value. -/
def optStrToValue : Option String → Value
  | Option.none => Value.none
  | some s => Value.str s

/-- The five literal keyword arguments of the `dict(...)` call in
`nitta_node_to_df_dict`, in source order. -/
def baseRow (node : NittaNode) (ex : Option String) : List (String × Value) :=
  [("example", optStrToValue ex),
   ("sid", Value.str node.sid),
   ("tag", Value.str node.decision_tag),
   ("old_score", Value.int node.score),
   ("is_terminal", Value.bool node.is_terminal)]

/-- Embedding of `nitta_node_to_df_dict`: build the base fields, splat the
sibling counts and the kind-specific parameters into one flat dict.  A
parameter key already used by an earlier keyword argument makes the Python
call raise `TypeError` (duplicate keyword argument), which is modelled by the
explicit collision check. -/
def nitta_node_to_df_dict (node : NittaNode) (siblings : List NittaNode)
    (ex : Option String) : Except PyErr (List (String × Value)) :=
  let base := baseRow node ex
  let altDict := _extract_alternative_siblings_dict node siblings
  match _extract_params_dict node with
  | Except.error e => Except.error e
  | Except.ok paramsDict =>
    if paramsDict.any (fun p => dictHasKey (base ++ altDict) p.1) then
      Except.error (PyErr.typeError "got multiple values for keyword argument")
    else
      Except.ok (base ++ altDict ++ paramsDict)

/-- One accumulated feature row. -/
abbrev Row := List (String × Value)

/-- Exceptions that can escape from the sampling circus inside
`run_synthesis_tree_sampling`: a user interruption request or any other
unexpected failure (`except Exception`). -/
inductive PyExc where
  | keyboardInterrupt
  | exception (msg : String)
  deriving DecidableEq, Repr

/-- Modelled from the spec: the derived per-example statistics of a
`SamplingResult` (`result_processing.py` is not under src/; the spec names
"row count ... or equivalent derived metrics"). -/
structure SamplingStats where
  n_results : Nat
  deriving DecidableEq, Repr

/-- Modelled from the spec: the per-target-algorithm output of sampling — the
accumulated feature rows plus derived stats (`SamplingResult` lives in
`result_processing.py`, which is not under src/). -/
structure SamplingResult where
  rows : List Row
  stats : SamplingStats
  deriving DecidableEq, Repr

/-- Behaviour of one invocation of the external tree sampler for a given
target algorithm: the rows it appends to the shared accumulator before it
stops, and the exception it raises at that point, if any. -/
structure SamplingBehavior where
  rows : List Row
  raised : Option PyExc

/-- The environment the crawling code runs against: which target-algorithm
sources exist on disk, and how sampling behaves for each source and
runner-kwargs combination. -/
structure CrawlEnv where
  sourceExists : String → Bool
  sampling : String → Nat → Nat → SamplingBehavior

/-- The `n_samples_per_batch` / `n_samples` runner kwargs of a crawl-config
entry. -/
structure RunnerKwargs where
  n_samples_per_batch : Nat
  n_samples : Nat
  deriving DecidableEq, Repr

/-- Modelled from the spec: `run_synthesis_tree_sampling` (module
`tree_sampling.py`, not under src/) drives batched random walks, appending a
feature row to `results_accum` for every visited node, until done or until an
interruption/failure stops it; the pair returned here is the accumulator
content at the stopping point and the exception raised there, if any. -/
def run_synthesis_tree_sampling (env : CrawlEnv) (ex : String) (kw : RunnerKwargs) :
    List Row × Option PyExc :=
  ((env.sampling ex kw.n_samples_per_batch kw.n_samples).rows,
   (env.sampling ex kw.n_samples_per_batch kw.n_samples).raised)

/-- Modelled from the spec: `process_and_save_sampling_results`
(`result_processing.py`, not under src/) builds the per-example
`SamplingResult` from exactly the accumulated rows, persists it, and returns
it. -/
def process_and_save_sampling_results (results : List Row) : SamplingResult :=
  { rows := results, stats := { n_results := results.length } }

/-- `dataclasses.asdict` on the stats record. -/
def statsAsdict (s : SamplingStats) : List (String × Value) :=
  [("n_results", Value.int s.n_results)]

/-- Embedding of `crawl_data_from_example` from `data_crawling.py`: return
`None` when the target-algorithm source does not exist; otherwise run the
sampler under a `try` that absorbs `KeyboardInterrupt` and `Exception`, and in
every case hand the accumulated rows to result processing. -/
def crawl_data_from_example (env : CrawlEnv) (ex : String) (kw : RunnerKwargs) :
    Except PyExc (Option SamplingResult) :=
  if env.sourceExists ex = false then
    Except.ok Option.none
  else
    match run_synthesis_tree_sampling env ex kw with
    | (results, Option.none) =>
      Except.ok (some (process_and_save_sampling_results results))
    | (results, some PyExc.keyboardInterrupt) =>
      Except.ok (some (process_and_save_sampling_results results))
    | (results, some (PyExc.exception _)) =>
      Except.ok (some (process_and_save_sampling_results results))

/-- A crawl-config key: the target-algorithm source path and its final path
component (`Path.name`), as used for the summary's `example` field. -/
structure ExamplePath where
  path : String
  name : String
  deriving DecidableEq, Repr

/-- `CrawlConfig`: an ordered mapping from target-algorithm source to runner
kwargs. -/
abbrev CrawlConfig := List (ExamplePath × RunnerKwargs)

/-- Modelled from the spec: `EXAMPLES_DIR` comes from `consts.py`, which is
not under src/ — an opaque directory prefix for the bundled examples. -/
def EXAMPLES_DIR : String := "examples"

/-- Final path component of a relative path (`Path.name`). -/
def pathName (s : String) : String :=
  ((s.splitOn "/").getLast?).getD s

/-- One entry of the hardcoded crawl config: `EXAMPLES_DIR / rel` with its
batch size and sample count. -/
def mkCfgEntry (rel : String) (batch : Nat) (n : Nat) : ExamplePath × RunnerKwargs :=
  (⟨EXAMPLES_DIR ++ "/" ++ rel, pathName rel⟩, ⟨batch, n⟩)

/-- Embedding of `MANUAL_FULL_CRAWL_CONFIG`: the curated default crawl
config, in its source insertion order. -/
def MANUAL_FULL_CRAWL_CONFIG : CrawlConfig :=
  [mkCfgEntry "spi3.lua" 149 39757,
   mkCfgEntry "sum.lua" 131 28014,
   mkCfgEntry "constantFolding.lua" 128 26607,
   mkCfgEntry "pid.lua" 72 14356,
   mkCfgEntry "teacup.lua" 88 16559,
   mkCfgEntry "generated/matrix-mult-1x3.lua" 98 18219,
   mkCfgEntry "generated/cyclic3.lua" 95 17677,
   mkCfgEntry "generated/cyclic4.lua" 63 13345,
   mkCfgEntry "generated/cyclic5.lua" 59 12933,
   mkCfgEntry "generated/vars.lua" 27 10452]

/-- Observable outcome of `crawl_data_from_many_examples`: the source paths it
processed in order, the summary rows it accumulated, and the summary lists it
persisted (the final `save_dicts_list_to_csv_with_timestamp` call). -/
structure CrawlRunOutput where
  processed : List String
  summary_stats : List Row
  saved : List (List Row)
  deriving DecidableEq, Repr

/-- The per-entry loop of `crawl_data_from_many_examples`: process each config
entry in order, appending a `{example name, stats}` summary row when the
per-example crawl yields a result and skipping the entry when it yields
`None`. -/
def crawlExamplesLoop (env : CrawlEnv) : CrawlConfig → Except PyExc (List String × List Row)
  | [] => Except.ok ([], [])
  | (e, kw) :: rest =>
    match crawl_data_from_example env e.path kw with
    | Except.error exc => Except.error exc
    | Except.ok Option.none =>
      match crawlExamplesLoop env rest with
      | Except.error exc => Except.error exc
      | Except.ok (ps, ss) => Except.ok (e.path :: ps, ss)
    | Except.ok (some r) =>
      match crawlExamplesLoop env rest with
      | Except.error exc => Except.error exc
      | Except.ok (ps, ss) =>
        Except.ok (e.path :: ps, (("example", Value.str e.name) :: statsAsdict r.stats) :: ss)

/-- Run the loop over a resolved crawl config and persist the summary once at
the end. -/
def runCrawl (env : CrawlEnv) (cfg : CrawlConfig) : Except PyExc CrawlRunOutput :=
  match crawlExamplesLoop env cfg with
  | Except.error exc => Except.error exc
  | Except.ok (ps, ss) => Except.ok { processed := ps, summary_stats := ss, saved := [ss] }

/-- Embedding of `crawl_data_from_many_examples`: fall back to
`MANUAL_FULL_CRAWL_CONFIG` only when no config is supplied, then drive the
per-example crawl across the resolved config. -/
def crawl_data_from_many_examples (env : CrawlEnv) (crawl_config : Option CrawlConfig) :
    Except PyExc CrawlRunOutput :=
  match crawl_config with
  | Option.none => runCrawl env MANUAL_FULL_CRAWL_CONFIG
  | some cfg => runCrawl env cfg

/-- Summary row appended by the orchestrator for one successfully crawled
example: its name followed by the example's sampling stats. -/
def summaryRowFor (env : CrawlEnv) (e : ExamplePath) (kw : RunnerKwargs) : Row :=
  ("example", Value.str e.name) ::
    statsAsdict (process_and_save_sampling_results
      (env.sampling e.path kw.n_samples_per_batch kw.n_samples).rows).stats

/-- Root node of the test fixture: sid "-", kind RootView, score 1010. -/
def testRoot : NittaNode :=
  ⟨"-", "RootView", 1010, false, PyParams.atom Value.none⟩

/-- First child of the test root: a single-bind alternative. -/
def testChild1 : NittaNode :=
  ⟨"-0", "SingleBindView", 4000, false,
   PyParams.dict [("tag", Value.str "BindDecisionView"), ("pPU", Value.str "fram1")]⟩

/-- Second child entry: a defensive self-entry sharing the root's sid. -/
def testChild2 : NittaNode :=
  ⟨"-", "RootView", 1010, false, PyParams.atom Value.none⟩

/-- The test root's sibling collection: one bind alternative among two children. -/
def testSiblings : List NittaNode := [testChild1, testChild2]

/-- Bind node whose parameters carry the internal `tag` entry. -/
def wBindNode : NittaNode :=
  ⟨"s1", "SingleBindView", 5, false,
   PyParams.dict [("tag", Value.str "BindDecisionView"), ("pWave", Value.int 2)]⟩

/-- Bind node whose parameters lack the internal `tag` entry. -/
def cBindNodeNoTag : NittaNode :=
  ⟨"s1", "SingleBindView", 5, false, PyParams.dict [("pWave", Value.int 2)]⟩

/-- Dataflow node with a non-transferable-inputs flag sequence. -/
def wDataflowNode : NittaNode :=
  ⟨"s2", "DataflowDecisionView", 7, false,
   PyParams.dict [("pWait", Value.int 1), ("pNotTransferableInputs", Value.intList [1, 0, 1])]⟩

/-- Dataflow node whose parameters contain a `tag` entry colliding with the
base row field. -/
def cDataflowTagNode : NittaNode :=
  ⟨"s3", "DataflowDecisionView", 3, false,
   PyParams.dict [("tag", Value.str "DataflowDecisionView"),
                  ("pNotTransferableInputs", Value.intList [0])]⟩

/-- Dataflow node whose parameters payload is not a dict. -/
def wAtomParamsNode : NittaNode :=
  ⟨"s4", "DataflowDecisionView", 0, false, PyParams.atom Value.none⟩

/-- Node with an arbitrary (refactoring-family) decision tag. -/
def wRefactoringNode : NittaNode :=
  ⟨"s5", "BreakLoopView", 0, true, PyParams.atom Value.none⟩

/-- Two feature rows accumulated before a forced interruption. -/
def wRows : List Row := [[("sid", Value.str "s0")], [("sid", Value.str "s1")]]

/-- Environment whose sampler accumulates `wRows` and is then interrupted. -/
def wEnvInterrupt : CrawlEnv :=
  ⟨fun _ => true, fun _ _ _ => ⟨wRows, some PyExc.keyboardInterrupt⟩⟩

/-- Environment in which only `examples/ok.lua` exists and sampling completes
normally with one accumulated row. -/
def wEnvMixed : CrawlEnv :=
  ⟨fun p => p == "examples/ok.lua", fun _ _ _ => ⟨[[("sid", Value.str "s0")]], Option.none⟩⟩

/-- Crawl-config key for a missing source. -/
def wE1 : ExamplePath := ⟨"examples/missing.lua", "missing.lua"⟩

/-- Crawl-config key for an existing source. -/
def wE2 : ExamplePath := ⟨"examples/ok.lua", "ok.lua"⟩

/-- Small runner kwargs used in concrete runs. -/
def wKw : RunnerKwargs := ⟨2, 5⟩

lemma dictHasKey_iff_mem (d : List (String × Value)) (k : String) :
    dictHasKey d k = true ↔ k ∈ dictKeys d := by
  induction d with
  | nil => simp [dictHasKey, dictKeys]
  | cons p rest ih =>
    obtain ⟨k0, v0⟩ := p
    simp only [dictHasKey, dictKeys, List.map_cons, List.mem_cons,
      Bool.or_eq_true, beq_iff_eq, ih]
    constructor
    · rintro (h | h)
      · exact Or.inl h.symm
      · exact Or.inr h
    · rintro (h | h)
      · exact Or.inl h.symm
      · exact Or.inr h

lemma dictGet_dictSet_self (d : List (String × Value)) (k : String) (v : Value) :
    dictGet (dictSet d k v) k = some v := by
  induction d with
  | nil => simp [dictSet, dictGet]
  | cons p rest ih =>
    obtain ⟨k0, v0⟩ := p
    by_cases h : k0 = k
    · simp [dictSet, dictGet, h]
    · simp [dictSet, dictGet, h, ih]

lemma dictGet_dictSet_ne (d : List (String × Value)) (k k' : String) (v : Value)
    (h : k' ≠ k) : dictGet (dictSet d k v) k' = dictGet d k' := by
  induction d with
  | nil => simp [dictSet, dictGet, Ne.symm h]
  | cons p rest ih =>
    obtain ⟨k0, v0⟩ := p
    by_cases h0 : k0 = k
    · subst h0
      simp [dictSet, dictGet, Ne.symm h]
    · by_cases h1 : k0 = k'
      · subst h1
        simp [dictSet, dictGet, h0]
      · simp [dictSet, dictGet, h0, h1, ih]

lemma mem_dictKeys_dictSet (d : List (String × Value)) (k k' : String) (v : Value)
    (h : k' ∈ dictKeys d) : k' ∈ dictKeys (dictSet d k v) := by
  induction d with
  | nil => simp [dictKeys] at h
  | cons p rest ih =>
    obtain ⟨k0, v0⟩ := p
    by_cases h0 : k0 = k
    · simpa [dictSet, dictKeys, h0] using h
    · rcases (by simpa [dictKeys] using h : k' = k0 ∨ k' ∈ dictKeys rest) with h1 | h1
      · simp [dictSet, dictKeys, h0, h1]
      · have := ih h1
        simp only [dictSet, if_neg h0, dictKeys, List.map_cons, List.mem_cons]
        right
        simpa [dictKeys] using this

lemma filter_eq_self_of_not_mem_keys (d : List (String × Value)) (k : String)
    (h : k ∉ dictKeys d) : d.filter (fun p => p.1 != k) = d := by
  induction d with
  | nil => rfl
  | cons p rest ih =>
    obtain ⟨k0, v0⟩ := p
    have hne : ¬k = k0 := fun he =>
      h (by simp only [dictKeys, List.map_cons, List.mem_cons]; exact Or.inl he)
    have h2 : k ∉ dictKeys rest := fun hm =>
      h (by simp only [dictKeys, List.map_cons, List.mem_cons]; exact Or.inr hm)
    simp [List.filter_cons, bne_iff_ne, Ne.symm hne, ih h2]

lemma dictHasKey_filter_ne (d : List (String × Value)) (k : String) :
    dictHasKey (d.filter (fun p => p.1 != k)) k = false := by
  induction d with
  | nil => rfl
  | cons p rest ih =>
    obtain ⟨k0, v0⟩ := p
    by_cases h : k0 = k
    · simpa [List.filter_cons, h] using ih
    · simpa [List.filter_cons, bne_iff_ne, h, dictHasKey] using ih

lemma dictDel_eq_filter (d : List (String × Value)) (k : String)
    (hnd : (dictKeys d).Nodup) (hk : k ∈ dictKeys d) :
    dictDel d k = Except.ok (d.filter (fun p => p.1 != k)) := by
  induction d with
  | nil => simp [dictKeys] at hk
  | cons p rest ih =>
    obtain ⟨k0, v0⟩ := p
    simp only [dictKeys, List.map_cons, List.nodup_cons] at hnd
    by_cases h : k0 = k
    · subst h
      have hrest : rest.filter (fun p => p.1 != k0) = rest :=
        filter_eq_self_of_not_mem_keys rest k0 hnd.1
      simp [dictDel, List.filter_cons, hrest]
    · have hk' : k ∈ dictKeys rest := by
        rcases (by simpa [dictKeys] using hk : k = k0 ∨ k ∈ dictKeys rest) with h1 | h1
        · exact absurd h1.symm h
        · exact h1
      simp [dictDel, List.filter_cons, bne_iff_ne, h, ih hnd.2 hk', Except.map]

lemma foldl_altStep_total (node : NittaNode) :
    ∀ (siblings : List NittaNode) (acc : AltCounts),
      ((siblings.foldl (altStep node) acc).total) =
        acc.total + (siblings.filter (fun s => s.sid != node.sid)).length := by
  intro siblings
  induction siblings with
  | nil => intro acc; simp
  | cons s rest ih =>
    intro acc
    by_cases h : s.sid = node.sid
    · have hstep : altStep node acc s = acc := by simp [altStep, h]
      simp [List.foldl_cons, List.filter_cons, h, hstep, ih]
    · have hstep : (altStep node acc s).total = acc.total + 1 := by
        simp only [altStep, if_neg h]
        split_ifs <;> simp [AltCounts.total] <;> omega
      simp [List.foldl_cons, List.filter_cons, bne_iff_ne, h, ih, hstep]
      omega

lemma crawl_example_of_missing (env : CrawlEnv) (ex : String) (kw : RunnerKwargs)
    (h : env.sourceExists ex = false) :
    crawl_data_from_example env ex kw = Except.ok Option.none := by
  simp [crawl_data_from_example, h]

lemma crawl_example_of_found (env : CrawlEnv) (ex : String) (kw : RunnerKwargs)
    (h : env.sourceExists ex = true) :
    crawl_data_from_example env ex kw =
      Except.ok (some (process_and_save_sampling_results
        (env.sampling ex kw.n_samples_per_batch kw.n_samples).rows)) := by
  simp only [crawl_data_from_example, h]
  simp only [Bool.true_eq_false, if_false, run_synthesis_tree_sampling]
  rcases hr : (env.sampling ex kw.n_samples_per_batch kw.n_samples).raised with _ | exc
  · rfl
  · cases exc <;> rfl


lemma crawl_example_never_raises (env : CrawlEnv) (ex : String) (kw : RunnerKwargs) :
    ∃ r, crawl_data_from_example env ex kw = Except.ok r := by
  cases h : env.sourceExists ex with
  | false => exact ⟨Option.none, crawl_example_of_missing env ex kw h⟩
  | true => exact ⟨_, crawl_example_of_found env ex kw h⟩

lemma crawlExamplesLoop_processed (env : CrawlEnv) :
    ∀ cfg : CrawlConfig, ∃ ss,
      crawlExamplesLoop env cfg = Except.ok (cfg.map (fun p => p.1.path), ss) := by
  intro cfg
  induction cfg with
  | nil => exact ⟨[], rfl⟩
  | cons entry rest ih =>
    obtain ⟨e, kw⟩ := entry
    obtain ⟨ss, hs⟩ := ih
    obtain ⟨r, hr⟩ := crawl_example_never_raises env e.path kw
    cases r with
    | none =>
      exact ⟨ss, by simp [crawlExamplesLoop, hr, hs]⟩
    | some res =>
      exact ⟨(("example", Value.str e.name) :: statsAsdict res.stats) :: ss,
        by simp [crawlExamplesLoop, hr, hs]⟩

/-- Claim C2 counterexample: a SingleBind node whose parameters dict lacks the
internal `tag` entry makes the extractor raise `KeyError` (the source runs
`del result["tag"]` unconditionally for Bind kinds), so no FeatureRow is
produced in the tag-absent case — refuting "omits it regardless of whether
that field is present or absent". -/
theorem bind_tag_absent_raises_keyerror :
    nitta_node_to_df_dict cBindNodeNoTag [] Option.none =
      Except.error (PyErr.keyError "tag") := by
  decide

/-- Claim C2 (amended): for SingleBind/GroupBind nodes whose parameters dict
does contain the internal `tag` entry, the extracted parameter fields are all
entries except `tag`, and `tag` is never among the extracted parameter keys;
when the entry is absent the extractor raises instead (see the
counterexample). -/
theorem bind_params_drop_internal_tag :
    ∀ (node : NittaNode) (d : List (String × Value)),
      node.decision_tag ∈ BIND_DECISION_TAGS →
      node.parameters = PyParams.dict d →
      (dictKeys d).Nodup →
      "tag" ∈ dictKeys d →
      _extract_params_dict node = Except.ok (d.filter (fun p => p.1 != "tag")) ∧
      dictHasKey (d.filter (fun p => p.1 != "tag")) "tag" = false := by
  intro node d hb hp hnd htag
  have hdel := dictDel_eq_filter d "tag" hnd htag
  have hcases : node.decision_tag = "SingleBindView" ∨ node.decision_tag = "GroupBindView" := by
    simpa [BIND_DECISION_TAGS, SINGLE_BIND_DECISION_TAG, GROUP_BIND_DECISION_TAG] using hb
  rcases hcases with h | h <;>
    exact ⟨by simp [_extract_params_dict, h, hp, DATAFLOW_DECISION_TAGS, BIND_DECISION_TAGS,
        SINGLE_BIND_DECISION_TAG, GROUP_BIND_DECISION_TAG, hdel],
      dictHasKey_filter_ne d "tag"⟩

/-- Claim C2 witness: on a concrete bind node carrying a `tag` parameter the
extractor keeps every other field and drops `tag`. -/
theorem bind_params_drop_internal_tag_witness :
    _extract_params_dict wBindNode = Except.ok [("pWave", Value.int 2)] ∧
    dictHasKey [("pWave", Value.int 2)] "tag" = false := by
  have h := bind_params_drop_internal_tag wBindNode
    [("tag", Value.str "BindDecisionView"), ("pWave", Value.int 2)]
    (by decide) rfl (by decide) (by decide)
  exact ⟨h.1, h.2⟩

/-- Claim C3: for Dataflow nodes whose parameters contain the
`pNotTransferableInputs` sequence, the extractor replaces that field in place
by the arithmetic sum of the sequence (empty sequence summing to 0) and leaves
every other parameter field unchanged. -/
theorem dataflow_params_sum_not_transferable :
    ∀ (node : NittaNode) (d : List (String × Value)) (l : List Int),
      node.decision_tag = "DataflowDecisionView" →
      node.parameters = PyParams.dict d →
      dictGet d "pNotTransferableInputs" = some (Value.intList l) →
      _extract_params_dict node =
        Except.ok (dictSet d "pNotTransferableInputs" (Value.int (listSumInt l))) ∧
      dictGet (dictSet d "pNotTransferableInputs" (Value.int (listSumInt l)))
          "pNotTransferableInputs" = some (Value.int (listSumInt l)) ∧
      (∀ k, k ≠ "pNotTransferableInputs" →
        dictGet (dictSet d "pNotTransferableInputs" (Value.int (listSumInt l))) k =
          dictGet d k) ∧
      listSumInt [] = 0 := by
  intro node d l h1 h2 h3
  refine ⟨?_, dictGet_dictSet_self d _ _, fun k hk => dictGet_dictSet_ne d _ k _ hk, rfl⟩
  simp [_extract_params_dict, h1, h2, h3, DATAFLOW_DECISION_TAGS, BIND_DECISION_TAGS,
    SINGLE_BIND_DECISION_TAG, GROUP_BIND_DECISION_TAG]

/-- Claim C3 witness: a concrete Dataflow node with flag sequence `[1, 0, 1]`
yields parameter fields with the sum 2 in place of the sequence, with the
other field untouched. -/
theorem dataflow_params_sum_not_transferable_witness :
    _extract_params_dict wDataflowNode =
      Except.ok [("pWait", Value.int 1), ("pNotTransferableInputs", Value.int 2)] ∧
    dictGet [("pWait", Value.int 1), ("pNotTransferableInputs", Value.int 2)] "pWait" =
      some (Value.int 1) := by
  have h := dataflow_params_sum_not_transferable wDataflowNode
    [("pWait", Value.int 1), ("pNotTransferableInputs", Value.intList [1, 0, 1])]
    [1, 0, 1] rfl rfl (by decide)
  exact ⟨h.1, by decide⟩

/-- Claim C6: any decision tag outside the known SingleBind/GroupBind/
Dataflow/Root set is treated as a refactoring: the extracted parameters are
exactly the single `pRefactoringType` field holding the node's own tag. -/
theorem unknown_tag_is_refactoring :
    ∀ node : NittaNode,
      node.decision_tag ∉
        (["SingleBindView", "GroupBindView", "DataflowDecisionView", "RootView"] :
          List String) →
      _extract_params_dict node =
        Except.ok [("pRefactoringType", Value.str node.decision_tag)] := by
  intro node h
  have h1 : node.decision_tag ∉ DATAFLOW_DECISION_TAGS ++ BIND_DECISION_TAGS := by
    intro hm
    apply h
    rcases (by simpa [DATAFLOW_DECISION_TAGS, BIND_DECISION_TAGS,
        SINGLE_BIND_DECISION_TAG, GROUP_BIND_DECISION_TAG] using hm :
        node.decision_tag = "DataflowDecisionView" ∨ node.decision_tag = "SingleBindView" ∨
          node.decision_tag = "GroupBindView") with hc | hc | hc <;> simp [hc]
  have h2 : ¬node.decision_tag = "RootView" := fun he => h (by simp [he])
  simp [_extract_params_dict, h1, h2]

/-- Claim C6 witness: a node tagged `BreakLoopView` yields exactly the
refactoring-type parameter field. -/
theorem unknown_tag_is_refactoring_witness :
    _extract_params_dict wRefactoringNode =
      Except.ok [("pRefactoringType", Value.str "BreakLoopView")] :=
  unknown_tag_is_refactoring wRefactoringNode (by decide)

/-- Claim C8: a Bind or Dataflow node whose parameters payload is not a dict
makes the extractor fail with the assertion error, while Root and
refactoring-family nodes are converted without any payload check (they succeed
for every payload, dict or not). -/
theorem bind_dataflow_params_must_be_dict :
    (∀ (node : NittaNode) (v : Value),
      node.decision_tag ∈ DATAFLOW_DECISION_TAGS ++ BIND_DECISION_TAGS →
      node.parameters = PyParams.atom v →
      _extract_params_dict node =
        Except.error
          (PyErr.assertionError "parameters must be a dict for Bind and Dataflow decisions")) ∧
    (∀ node : NittaNode, node.decision_tag = "RootView" →
      _extract_params_dict node = Except.ok []) ∧
    (∀ node : NittaNode,
      node.decision_tag ∉
        (["SingleBindView", "GroupBindView", "DataflowDecisionView", "RootView"] :
          List String) →
      _extract_params_dict node =
        Except.ok [("pRefactoringType", Value.str node.decision_tag)]) := by
  refine ⟨?_, ?_, ?_⟩
  · intro node v hmem hp
    simp [_extract_params_dict, hmem, hp]
  · intro node h
    simp [_extract_params_dict, h, DATAFLOW_DECISION_TAGS, BIND_DECISION_TAGS,
      SINGLE_BIND_DECISION_TAG, GROUP_BIND_DECISION_TAG]
  · intro node h
    have h1 : node.decision_tag ∉ DATAFLOW_DECISION_TAGS ++ BIND_DECISION_TAGS := by
      intro hm
      apply h
      rcases (by simpa [DATAFLOW_DECISION_TAGS, BIND_DECISION_TAGS,
          SINGLE_BIND_DECISION_TAG, GROUP_BIND_DECISION_TAG] using hm :
          node.decision_tag = "DataflowDecisionView" ∨ node.decision_tag = "SingleBindView" ∨
            node.decision_tag = "GroupBindView") with hc | hc | hc <;> simp [hc]
    have h2 : ¬node.decision_tag = "RootView" := fun he => h (by simp [he])
    simp [_extract_params_dict, h1, h2]

/-- Claim C8 witness: a Dataflow node with a `None` parameters payload hits
the assertion, while the Root fixture (also with a non-dict payload) converts
to an empty parameter dict. -/
theorem bind_dataflow_params_must_be_dict_witness :
    _extract_params_dict wAtomParamsNode =
      Except.error
        (PyErr.assertionError "parameters must be a dict for Bind and Dataflow decisions") ∧
    _extract_params_dict testRoot = Except.ok [] :=
  ⟨bind_dataflow_params_must_be_dict.1 wAtomParamsNode Value.none (by decide) rfl,
   bind_dataflow_params_must_be_dict.2.1 testRoot rfl⟩

/-- Claim C4: the sibling-classification loop puts every sibling with a
different sid into exactly one of the four buckets and skips self-entries: the
four emitted count fields are the loop's counters, the counters sum to the
number of siblings whose sid differs from the node's, and a sibling sharing
the node's sid contributes nothing wherever it occurs. -/
theorem alternative_sibling_counts_partition :
    ∀ (node : NittaNode) (siblings : List NittaNode),
      _extract_alternative_siblings_dict node siblings =
        [("alt_bindings", Value.int (countAlternatives node siblings).alt_bindings),
         ("alt_group_bindings", Value.int (countAlternatives node siblings).alt_group_bindings),
         ("alt_dataflows", Value.int (countAlternatives node siblings).alt_dataflows),
         ("alt_refactorings", Value.int (countAlternatives node siblings).alt_refactorings)] ∧
      (countAlternatives node siblings).total =
        (siblings.filter (fun s => s.sid != node.sid)).length ∧
      ∀ (pre post : List NittaNode) (s : NittaNode), s.sid = node.sid →
        countAlternatives node (pre ++ s :: post) = countAlternatives node (pre ++ post) := by
  intro node siblings
  refine ⟨rfl, ?_, ?_⟩
  · have h := foldl_altStep_total node siblings ⟨0, 0, 0, 0⟩
    simpa [countAlternatives, AltCounts.total] using h
  · intro pre post s hs
    have hstep : ∀ acc, altStep node acc s = acc := fun acc => by simp [altStep, hs]
    simp [countAlternatives, List.foldl_append, List.foldl_cons, hstep]

/-- Claim C4 witness: in the test fixture the defensive self-entry among the
two children is skipped — removing it leaves the counts unchanged. -/
theorem alternative_sibling_counts_partition_witness :
    testChild2.sid = testRoot.sid ∧
    countAlternatives testRoot ([testChild1] ++ testChild2 :: []) =
      countAlternatives testRoot ([testChild1] ++ []) :=
  ⟨rfl, (alternative_sibling_counts_partition testRoot []).2.2 [testChild1] [] testChild2 rfl⟩

/-- Claim C5: a Root-kind node converts to exactly the base fields plus the
four alternative counts with no parameter fields, and the concrete
fixture — RootView node with score 1010 and one SingleBindView sibling among
two children — yields counts 1/0/0/0. -/
theorem root_row_has_no_params :
    (∀ (node : NittaNode) (siblings : List NittaNode) (ex : Option String),
      node.decision_tag = "RootView" →
      nitta_node_to_df_dict node siblings ex =
        Except.ok (baseRow node ex ++ _extract_alternative_siblings_dict node siblings)) ∧
    nitta_node_to_df_dict testRoot testSiblings (some "test") =
      Except.ok
        [("example", Value.str "test"), ("sid", Value.str "-"),
         ("tag", Value.str "RootView"), ("old_score", Value.int 1010),
         ("is_terminal", Value.bool false), ("alt_bindings", Value.int 1),
         ("alt_group_bindings", Value.int 0), ("alt_dataflows", Value.int 0),
         ("alt_refactorings", Value.int 0)] := by
  constructor
  · intro node siblings ex h
    have hp : _extract_params_dict node = Except.ok [] := by
      simp [_extract_params_dict, h, DATAFLOW_DECISION_TAGS, BIND_DECISION_TAGS,
        SINGLE_BIND_DECISION_TAG, GROUP_BIND_DECISION_TAG]
    simp [nitta_node_to_df_dict, hp]
  · decide

/-- Claim C5 witness: the general Root shape applied to the concrete fixture. -/
theorem root_row_has_no_params_witness :
    testRoot.decision_tag = "RootView" ∧
    nitta_node_to_df_dict testRoot testSiblings (some "test") =
      Except.ok (baseRow testRoot (some "test") ++
        _extract_alternative_siblings_dict testRoot testSiblings) :=
  ⟨rfl, root_row_has_no_params.1 testRoot testSiblings (some "test") rfl⟩

/-- Claim C10: a Dataflow node keeps its `tag` parameter (only Bind kinds
delete it), so any parameter key that matches one of the nine already-bound
row fields — `tag` included — makes row construction fail with the
duplicate-keyword `TypeError` instead of producing a FeatureRow. -/
theorem dataflow_retained_tag_collides :
    ∀ (node : NittaNode) (d : List (String × Value)) (l : List Int) (k : String)
      (siblings : List NittaNode) (ex : Option String),
      node.decision_tag = "DataflowDecisionView" →
      node.parameters = PyParams.dict d →
      dictGet d "pNotTransferableInputs" = some (Value.intList l) →
      k ∈ dictKeys d →
      k ∈ (["example", "sid", "tag", "old_score", "is_terminal", "alt_bindings",
            "alt_group_bindings", "alt_dataflows", "alt_refactorings"] : List String) →
      nitta_node_to_df_dict node siblings ex =
        Except.error (PyErr.typeError "got multiple values for keyword argument") := by
  intro node d l k siblings ex h1 h2 h3 hkd hk9
  have hex : _extract_params_dict node =
      Except.ok (dictSet d "pNotTransferableInputs" (Value.int (listSumInt l))) := by
    simp [_extract_params_dict, h1, h2, h3, DATAFLOW_DECISION_TAGS, BIND_DECISION_TAGS,
      SINGLE_BIND_DECISION_TAG, GROUP_BIND_DECISION_TAG]
  have hkP : k ∈ dictKeys (dictSet d "pNotTransferableInputs" (Value.int (listSumInt l))) :=
    mem_dictKeys_dictSet d _ k _ hkd
  have hkeys : dictKeys (baseRow node ex ++ _extract_alternative_siblings_dict node siblings) =
      ["example", "sid", "tag", "old_score", "is_terminal", "alt_bindings",
       "alt_group_bindings", "alt_dataflows", "alt_refactorings"] := rfl
  have hbase :
      dictHasKey (baseRow node ex ++ _extract_alternative_siblings_dict node siblings) k = true := by
    rw [dictHasKey_iff_mem, hkeys]
    exact hk9
  have hany : ((dictSet d "pNotTransferableInputs" (Value.int (listSumInt l))).any
      (fun p => dictHasKey
        (baseRow node ex ++ _extract_alternative_siblings_dict node siblings) p.1)) = true := by
    rw [List.any_eq_true]
    obtain ⟨v', hp⟩ :=
      (by simpa [dictKeys] using hkP :
        ∃ x, (k, x) ∈ dictSet d "pNotTransferableInputs" (Value.int (listSumInt l)))
    exact ⟨(k, v'), hp, hbase⟩
  simp [nitta_node_to_df_dict, hex, hany]

/-- Claim C10 witness: the concrete Dataflow node carrying a `tag` parameter
makes row construction raise the duplicate-keyword error. -/
theorem dataflow_retained_tag_collides_witness :
    nitta_node_to_df_dict cDataflowTagNode [] Option.none =
      Except.error (PyErr.typeError "got multiple values for keyword argument") :=
  dataflow_retained_tag_collides cDataflowTagNode
    [("tag", Value.str "DataflowDecisionView"), ("pNotTransferableInputs", Value.intList [0])]
    [0] "tag" [] Option.none rfl rfl (by decide) (by decide) (by decide)

/-- Claim C1: the per-example driver never lets an interruption or unexpected
failure escape (its result is always an `ok`), and on an existing source the
returned result is built from exactly the rows accumulated before the
stopping point — `process_and_save_sampling_results` keeps the accumulated
row list unchanged. -/
theorem crawl_driver_absorbs_failures :
    (∀ (env : CrawlEnv) (ex : String) (kw : RunnerKwargs),
      ∃ r, crawl_data_from_example env ex kw = Except.ok r) ∧
    (∀ (env : CrawlEnv) (ex : String) (kw : RunnerKwargs),
      env.sourceExists ex = true →
      crawl_data_from_example env ex kw =
        Except.ok (some (process_and_save_sampling_results
          (env.sampling ex kw.n_samples_per_batch kw.n_samples).rows))) ∧
    (∀ rows : List Row, (process_and_save_sampling_results rows).rows = rows) :=
  ⟨crawl_example_never_raises, crawl_example_of_found, fun _ => rfl⟩

/-- Claim C1 witness: an environment whose sampler is interrupted after
accumulating two rows still yields an `ok` result holding exactly those two
rows. -/
theorem crawl_driver_absorbs_failures_witness :
    wEnvInterrupt.sourceExists "examples/fib.lua" = true ∧
    crawl_data_from_example wEnvInterrupt "examples/fib.lua" wKw =
      Except.ok (some ⟨wRows, ⟨2⟩⟩) :=
  ⟨rfl, crawl_driver_absorbs_failures.2.1 wEnvInterrupt "examples/fib.lua" wKw rfl⟩

/-- Claim C7: a missing target-algorithm source makes the per-example driver
return `None` with no sampling (for every sampling behaviour), and a config
with one missing and one valid source still processes both entries, produces
a summary with exactly the valid entry, and raises nothing to the caller. -/
theorem missing_source_skipped_from_summary :
    (∀ (se : String → Bool) (sa : String → Nat → Nat → SamplingBehavior)
        (ex : String) (kw : RunnerKwargs),
      se ex = false →
      crawl_data_from_example ⟨se, sa⟩ ex kw = Except.ok Option.none) ∧
    (∀ (env : CrawlEnv) (e1 e2 : ExamplePath) (kw1 kw2 : RunnerKwargs),
      env.sourceExists e1.path = false →
      env.sourceExists e2.path = true →
      crawl_data_from_many_examples env (some [(e1, kw1), (e2, kw2)]) =
        Except.ok ⟨[e1.path, e2.path], [summaryRowFor env e2 kw2],
          [[summaryRowFor env e2 kw2]]⟩) := by
  constructor
  · intro se sa ex kw h
    exact crawl_example_of_missing ⟨se, sa⟩ ex kw h
  · intro env e1 e2 kw1 kw2 h1 h2
    have hm := crawl_example_of_missing env e1.path kw1 h1
    have hf := crawl_example_of_found env e2.path kw2 h2
    simp [crawl_data_from_many_examples, runCrawl, crawlExamplesLoop, hm, hf, summaryRowFor]

/-- Claim C7 witness: with only `examples/ok.lua` present, a two-entry config
yields a one-entry summary and both entries are processed in order. -/
theorem missing_source_skipped_from_summary_witness :
    wEnvMixed.sourceExists wE1.path = false ∧
    wEnvMixed.sourceExists wE2.path = true ∧
    crawl_data_from_many_examples wEnvMixed (some [(wE1, wKw), (wE2, wKw)]) =
      Except.ok ⟨["examples/missing.lua", "examples/ok.lua"],
        [[("example", Value.str "ok.lua"), ("n_results", Value.int 1)]],
        [[[("example", Value.str "ok.lua"), ("n_results", Value.int 1)]]]⟩ :=
  ⟨by decide, by decide,
   missing_source_skipped_from_summary.2 wEnvMixed wE1 wE2 wKw wKw (by decide) (by decide)⟩

/-- Claim C9: the hardcoded default config is consulted only when no config is
supplied; an explicitly supplied config (empty included) is used as given,
its entries are processed sequentially in insertion order, and the summary is
persisted exactly once, after all entries. -/
theorem explicit_config_overrides_default :
    (∀ env : CrawlEnv,
      crawl_data_from_many_examples env Option.none = runCrawl env MANUAL_FULL_CRAWL_CONFIG) ∧
    (∀ (env : CrawlEnv) (cfg : CrawlConfig),
      crawl_data_from_many_examples env (some cfg) = runCrawl env cfg) ∧
    (∀ (env : CrawlEnv) (cfg : CrawlConfig), ∃ ss,
      crawlExamplesLoop env cfg = Except.ok (cfg.map (fun p => p.1.path), ss)) ∧
    (∀ (env : CrawlEnv) (cfg : CrawlConfig) (out : CrawlRunOutput),
      runCrawl env cfg = Except.ok out → out.saved = [out.summary_stats]) := by
  refine ⟨fun env => rfl, fun env cfg => rfl, crawlExamplesLoop_processed, ?_⟩
  intro env cfg out h
  rcases hloop : crawlExamplesLoop env cfg with exc | pr
  · simp [runCrawl, hloop] at h
  · obtain ⟨ps, ss⟩ := pr
    simp only [runCrawl, hloop] at h
    injection h with h2
    rw [← h2]

/-- Claim C9 witness: an explicitly supplied empty config is processed as
given (the default is not consulted) and the one summary persisted is the
empty summary. -/
theorem explicit_config_overrides_default_witness :
    crawl_data_from_many_examples wEnvMixed (some []) = runCrawl wEnvMixed [] ∧
    runCrawl wEnvMixed [] = Except.ok ⟨[], [], [[]]⟩ ∧
    (⟨[], [], [[]]⟩ : CrawlRunOutput).saved = [(⟨[], [], [[]]⟩ : CrawlRunOutput).summary_stats] :=
  ⟨explicit_config_overrides_default.2.1 wEnvMixed [], rfl,
   explicit_config_overrides_default.2.2.2 wEnvMixed [] ⟨[], [], [[]]⟩ rfl⟩
